import Mathlib

/-!
Verification of the agent backend (FastAPI + Ollama task agent).

The Python sources are shallowly embedded: pure string manipulation is
translated into executable Lean functions over String / List Char, and
every external effect (the Ollama LLM, subprocesses, the filesystem,
the websocket) is an explicit oracle parameter, so each code path of the
source becomes a total function of its inputs and oracle outcomes.
-/

namespace Spec2Proof

/- ## Python string primitives (ASCII fragment used by the sources) -/

/-- Whitespace characters recognised by the Python str.strip / str.split
family and by the regex class backslash-s (Latin-1 range; the far
Unicode space code points are not modelled, the sources only see report
text). -/
def pyWS (c : Char) : Bool :=
  c = ' ' || c = '\t' || c = '\n' || c = '\x0d' || c = '\x0b' || c = '\x0c' ||
    c = '\x1c' || c = '\x1d' || c = '\x1e' || c = '\x1f' || c = '\x85' || c = '\xa0'

/-- Python str.strip(): drop leading and trailing whitespace. -/
def pyStrip (s : String) : String :=
  ⟨List.reverse (List.dropWhile pyWS (List.reverse (List.dropWhile pyWS s.toList)))⟩

/-- Python str.lower() (ASCII). -/
def lowerStr (s : String) : String :=
  ⟨s.toList.map Char.toLower⟩

/-- All suffixes of a list, longest first. -/
def tailsList : List Char → List (List Char)
  | [] => [[]]
  | c :: cs => (c :: cs) :: tailsList cs

/-- Python substring test: pat in s. -/
def containsSub (s pat : String) : Bool :=
  (tailsList s.toList).any (fun t => pat.toList.isPrefixOf t)

/-- Python str.startswith. -/
def startsWithStr (s pre : String) : Bool :=
  pre.toList.isPrefixOf s.toList

/-- Split at the first occurrence of pat: returns (before, after) without
the separator, or none when pat does not occur.  Mirrors the splitting
done by Python str.split(sep, 1). -/
def splitFirstAux (pat : List Char) : List Char → Option (List Char × List Char)
  | [] => if pat.isEmpty then some ([], []) else none
  | c :: cs =>
    if pat.isPrefixOf (c :: cs) then some ([], (c :: cs).drop pat.length)
    else
      match splitFirstAux pat cs with
      | some (a, b) => some (c :: a, b)
      | none => none

/-- Python s.split(sep, 1) restricted to the found case: some (before, after). -/
def pySplit1 (s sep : String) : Option (String × String) :=
  (splitFirstAux sep.toList s.toList).map (fun p => (⟨p.1⟩, ⟨p.2⟩))

/-- Fuel-driven worker for Python str.split(sep) with a non-empty separator. -/
def splitAllAux (pat : List Char) : Nat → List Char → List (List Char)
  | 0, l => [l]
  | f + 1, l =>
    match splitFirstAux pat l with
    | none => [l]
    | some (a, b) => a :: splitAllAux pat f b

/-- Python s.split(sep) for a non-empty separator. -/
def pySplitAll (s sep : String) : List String :=
  (splitAllAux sep.toList s.toList.length s.toList).map (fun l => ⟨l⟩)

/-- Fuel-driven worker for Python str.replace (non-empty pattern,
left-to-right, non-overlapping). -/
def replaceAux (pat rep : List Char) : Nat → List Char → List Char
  | 0, l => l
  | _ + 1, [] => []
  | f + 1, c :: cs =>
    if !pat.isEmpty && pat.isPrefixOf (c :: cs) then
      rep ++ replaceAux pat rep f ((c :: cs).drop pat.length)
    else
      c :: replaceAux pat rep f cs

/-- Python s.replace(pat, rep) for a non-empty pattern. -/
def pyReplace (s pat rep : String) : String :=
  ⟨replaceAux pat.toList rep.toList s.toList.length s.toList⟩

/-- Python str.isdigit() (ASCII digits). -/
def pyIsDigit (s : String) : Bool :=
  !s.toList.isEmpty && s.toList.all Char.isDigit

/-- Python s[:n]. -/
def pyTrunc (n : Nat) (s : String) : String :=
  ⟨s.toList.take n⟩

/-- Python "\n".join. -/
def joinNL : List String → String
  | [] => ""
  | [x] => x
  | x :: xs => x ++ "\n" ++ joinNL xs

/-- Python sep.join. -/
def joinSep (sep : String) : List String → String
  | [] => ""
  | [x] => x
  | x :: xs => x ++ sep ++ joinSep sep xs

/-- Python line boundaries for str.splitlines (the two far Unicode
separators U+2028 and U+2029 are also boundaries in Python; the report
text of the sources never contains them). -/
def pyLineBreak (c : Char) : Bool :=
  c = '\n' || c = '\x0d' || c = '\x0b' || c = '\x0c' ||
    c = '\x1c' || c = '\x1d' || c = '\x1e' || c = '\x85'

/-- Python str.splitlines(): split at every line boundary, treating
\x0d\n as one boundary, with no trailing empty line for a trailing
terminator. -/
def splitLinesAux : List Char → List Char → List (List Char)
  | [], acc => if acc.isEmpty then [] else [acc.reverse]
  | '\x0d' :: '\n' :: rest, acc => acc.reverse :: splitLinesAux rest []
  | c :: rest, acc =>
    if pyLineBreak c then acc.reverse :: splitLinesAux rest []
    else splitLinesAux rest (c :: acc)

/-- Python str.splitlines(). -/
def pySplitLines (s : String) : List String :=
  (splitLinesAux s.toList []).map (fun l => ⟨l⟩)

/-- os.path.basename on a POSIX path: the part after the last slash. -/
def osBasename (p : String) : String :=
  ⟨(p.toList.reverse.takeWhile (fun c => c ≠ '/')).reverse⟩

/- ## Shell tool: backend/app/tools/shell_terminal.py -/

/-- Lines 9-13: whitelisted command basenames. -/
def ALLOWED_COMMANDS : List String :=
  ["ls", "pwd", "echo", "cat", "grep", "mkdir", "rmdir", "rm",
   "touch", "head", "tail", "date", "uname", "df", "free", "env",
   "python", "python3", "pip", "pip3", "wget", "curl"]

/-- Line 16: blacklisted substrings for argument sanitization. -/
def ARGUMENT_BLACKLIST_PATTERNS : List String :=
  [";", "|", "&", "\x60", "$", "(", ")", "<", ">", "*", "?",
   "[", "]", "\x7b", "\x7d", "\\", ".."]

/-- Lines 60-76: the rejection message produced by the argument
sanitization loop for one argument, or none when the argument passes.
The split on os.sep uses the POSIX separator, as in the container. -/
def checkArg (arg : String) : Option String :=
  if ARGUMENT_BLACKLIST_PATTERNS.any (fun p => containsSub arg p) then
    if (pySplitAll arg "/").contains ".." then
      some ("Error: Argument \x27" ++ arg ++
        "\x27 contains potentially unsafe path traversal (\x27..\x27).")
    else
      let dangerous := ARGUMENT_BLACKLIST_PATTERNS.filter
        (fun p => p ≠ ".." && containsSub arg p)
      if !dangerous.isEmpty then
        some ("Error: Argument \x27" ++ arg ++
          "\x27 contains potentially unsafe characters: " ++ joinSep ", " dangerous)
      else none
  else none

/-- Oracle for shlex.split (external library): the token list, or the
ValueError message it raised. -/
inductive ShlexResult where
  | ok (parts : List String)
  | valueError (msg : String)
deriving DecidableEq

/-- Lines 26-76 of execute_shell_command: everything that happens before a
subprocess could be spawned.  Error = the string returned early (these
early returns are not stripped); ok = the validated token list that is
passed to create_subprocess_exec.  The Python message for a non-whitelisted
command renders the whitelist set; here it is rendered in list order. -/
def shellPreCheck (full_command : String) (shlexRes : ShlexResult) :
    Except String (List String) :=
  if pyStrip full_command = "" then
    .error "Error: No shell command provided to execute."
  else
    match shlexRes with
    | .valueError e =>
      .error ("Error: Command parsing failed: " ++ e ++
        ". Check quoting and special characters.")
    | .ok cmd_parts =>
      match cmd_parts with
      | [] => .error "Error: Empty command after parsing."
      | command :: args =>
        let command_basename := osBasename command
        if !ALLOWED_COMMANDS.contains command_basename then
          .error ("Error: Command \x27" ++ command_basename ++ "\x27 (from \x27" ++
            command ++ "\x27) is not in the allowed list: " ++
            joinSep ", " ALLOWED_COMMANDS)
        else
          match args.findSome? checkArg with
          | some e => .error e
          | none => .ok (command :: args)

/-- Whether execute_shell_command reaches create_subprocess_exec. -/
def shellSpawns (full_command : String) (shlexRes : ShlexResult) : Bool :=
  (shellPreCheck full_command shlexRes).isOk

/-- Oracle for the spawned subprocess (lines 89-155): how the execution
phase ended.  Decoded stdout / stderr are given pre-strip. -/
inductive ShellOutcome where
  | completed (exit : Int) (stdout stderr : String)
  | timedOut
  | fileNotFound
  | permissionDenied (e : String)
  | otherError (e : String) (tb : String)
deriving DecidableEq

/-- Lines 110-119: the combined report for a completed command. -/
def shellReport (exit : Int) (stdout stderr : String) : String :=
  joinNL (["Exit Code: " ++ toString exit] ++
    (if stdout = "" then [] else ["Output:\n" ++ stdout]) ++
    (if stderr = "" then []
     else [(if exit ≠ 0 then "Error:\n" else "Stderr Log:\n") ++ stderr]))

/-- execute_shell_command (lines 20-157).  TIMEOUT_SECONDS is 30, so the
timeout f-string renders as 30s.  The final return strips the result. -/
def execute_shell_command (full_command : String) (shlexRes : ShlexResult)
    (outcome : ShellOutcome) : String :=
  match shellPreCheck full_command shlexRes with
  | .error e => e
  | .ok cmd_parts =>
    let command := cmd_parts.headD ""
    let final_result_str :=
      match outcome with
      | .completed exit out err => shellReport exit (pyStrip out) (pyStrip err)
      | .timedOut => "Error: Shell command timed out after 30s."
      | .fileNotFound =>
        "Error: Command executable \x27" ++ command ++ "\x27 not found in system PATH."
      | .permissionDenied e =>
        "Error: Permission denied for command \x27" ++ command ++ "\x27: " ++ e
      | .otherError e tb =>
        "Error: Unexpected error executing shell command \x27" ++ full_command ++
          "\x27: " ++ e ++ "\n" ++ tb
    pyStrip final_result_str

/- ## Code interpreter: backend/app/tools/code_interpreter.py -/

/-- Line 33-35: the content written to the temporary script file is the
user code verbatim (tmp.write(code)); no prefix statement is injected. -/
def scriptContent (code : String) : String := code

/-- Oracle for one subprocess run of the script. -/
inductive AttemptOutcome where
  | finished (exit : Int) (stdout stderr : String)
  | timedOut
  | raised (e : String)
deriving DecidableEq

/-- run_script_attempt (lines 45-89): exit code plus decoded, stripped
stdout / stderr; TIMEOUT_SECONDS is 60, so the timeout message renders
with 60s; timeout and unexpected exceptions yield exit -1 with the
message in the stderr slot. -/
def run_script_attempt : AttemptOutcome → Int × String × String
  | .finished exit out err => (exit, pyStrip out, pyStrip err)
  | .timedOut => (-1, "", "Error: Python execution timed out after 60s.")
  | .raised e => (-1, "", "Error: Unexpected error during script execution: " ++ e)

/-- Line 103: re.sub removing every character outside [a-zA-Z0-9_\-.]. -/
def sanitizePackageName (s : String) : String :=
  ⟨s.toList.filter (fun c => c.isAlphanum || c = '_' || c = '-' || c = '.')⟩

/-- Lines 142-151: the combined report for the code interpreter. -/
def codeReport (exit : Int) (stdout stderr : String) : String :=
  joinNL (["Exit Code: " ++ toString exit] ++
    (if stdout = "" then [] else ["Output:\n" ++ stdout]) ++
    (if stderr = "" then []
     else [(if exit ≠ 0 then "Error:\n" else "Stderr Log:\n") ++ stderr]))

/-- Outer exceptions of execute_python_code (lines 159-171). -/
inductive CodeOuterExc where
  | interpreterNotFound (path : String)
  | other (e tb : String)
deriving DecidableEq

/-- External oracles consumed by one call of execute_python_code:
temp-file creation, the two script attempts, the regex extraction of a
missing module name, and the pip install subprocess. -/
structure CodeEnv where
  tempFileError : Option String
  outerExc : Option CodeOuterExc
  att1 : AttemptOutcome
  nameExtract : Option String
  pipExit : Int
  pipStderr : String
  att2 : AttemptOutcome
deriving DecidableEq

/-- execute_python_code (lines 13-181).  The returned report is not
stripped (line 181 returns final_result_str as is). -/
def execute_python_code (code : String) (env : CodeEnv) : String :=
  if pyStrip code = "" then "Error: No Python code provided to execute."
  else
    match env.tempFileError with
    | some e => "Error: Failed to create temporary file for code execution: " ++ e
    | none =>
      match env.outerExc with
      | some (.interpreterNotFound p) =>
        "Error: Python interpreter not found at \x27" ++ p ++ "\x27."
      | some (.other e tb) =>
        "Error: Unexpected error in code interpreter wrapper: " ++ e ++ "\n" ++ tb
      | none =>
        let r1 := run_script_attempt env.att1
        let exit1 := r1.1
        let stdout1 := r1.2.1
        let stderr1 := r1.2.2
        let r :=
          if exit1 ≠ 0 && stderr1 ≠ "" &&
              containsSub stderr1 "ModuleNotFoundError: No module named" then
            match env.nameExtract with
            | none => (exit1, stdout1, stderr1)
            | some raw =>
              let package_name := sanitizePackageName raw
              if package_name = "" then (exit1, stdout1, stderr1)
              else if env.pipExit = 0 then run_script_attempt env.att2
              else
                let install_fail_msg := "Error: Failed to install package \x27" ++
                  package_name ++ "\x27 (Exit Code: " ++ toString env.pipExit ++ ")."
                (exit1, stdout1, stderr1 ++ "\n\n--- Auto-install failed ---\n" ++
                  install_fail_msg ++ "\n" ++ pyStrip env.pipStderr ++ "\n---")
          else (exit1, stdout1, stderr1)
        codeReport r.1 r.2.1 r.2.2

/- ## Browser tool: backend/app/tools/browseruse_integration.py -/

/-- Oracle for the browser subprocess (lines 40-60 and 98-144). -/
inductive BrowserOutcome where
  | timedOut
  | raised (e : String)
  | completed (exit : Int) (stdout : Option String)
deriving DecidableEq

/-- Oracle for json.loads on the subprocess stdout (external library). -/
inductive StdoutJson where
  | notJson
  | withError (e : String)
  | withResult (r : String)
  | noResultKey
deriving DecidableEq

/-- browse_website (lines 64-144).  The overall timeout is the float
literal 240.0, so the timeout f-string renders as (240.0s).  jsonOnError
is the parse used on a non-zero exit (lines 107-112), jsonOnSuccess the
parse used on exit 0 (lines 123-136). -/
def browse_website (user_instruction : String) (runnerPath : String)
    (scriptExists : Bool) (browser_model : String) (outcome : BrowserOutcome)
    (jsonOnError jsonOnSuccess : StdoutJson) : String :=
  if !scriptExists then
    "Error: Browser helper script not found: " ++ runnerPath
  else if browser_model = "" then
    "Error: No browser_model specified for browse_website."
  else
    match outcome with
    | .timedOut => "Error: Browser subprocess exceeded hard timeout (240.0s)."
    | .raised e => "Error launching/managing browser process: " ++ e
    | .completed exit stdoutOpt =>
      if exit ≠ 0 then
        let base := "Error: Browser subprocess failed (Exit: " ++ toString exit ++ ")."
        match stdoutOpt with
        | none => base
        | some sb =>
          let stdout_str := pyStrip sb
          match jsonOnError with
          | .withError e => base ++ " Subprocess Error: " ++ e
          | .notJson => base ++ " Raw stdout: " ++ pyTrunc 200 stdout_str ++ "..."
          | _ => base
      else
        let stdout_str := match stdoutOpt with | none => "" | some sb => pyStrip sb
        if stdout_str = "" then "Browser action completed with no specific output."
        else
          match jsonOnSuccess with
          | .notJson =>
            "Error: Browser process returned non-JSON output. Raw: " ++
              pyTrunc 200 stdout_str ++ "..."
          | .withError e => "Error from browser task: " ++ e
          | .withResult r => r
          | .noResultKey => "Browser task finished (no \x27result\x27 key)."

/- ## Agent orchestration: backend/app/agent.py -/

/-- Tool names accepted by the normalization check at agent.py line 230. -/
def VALID_TOOLS : List String := ["code_interpreter", "shell_terminal", "browser", "none"]

/-- Oracle for the tool-selection block (agent.py lines 191-244): the
combined outcome of send_prompt, the JSON extraction and json.loads
(external).  parsed carries the two JSON fields when json.loads
succeeded; noJson covers an empty response and a missing JSON structure;
badJson is a json.loads failure; raised is any other exception in the
block. -/
inductive SelLLM where
  | raised
  | noJson
  | badJson
  | parsed (tn ti : Option String)
deriving DecidableEq

/-- Lines 190-242: the (tool_name, tool_input) pair after parsing and
normalization, or none when the selection block raised (line 244 then
clears all_tasks_ok and breaks the loop).  A parsed name outside
VALID_TOOLS is normalized to unknown; missing fields default to unknown
and the task description. -/
def selName (s : SelLLM) (task_desc : String) : Option (String × String) :=
  match s with
  | .raised => none
  | .noJson => some ("unknown", task_desc)
  | .badJson => some ("unknown", task_desc)
  | .parsed tn ti =>
    let name := pyStrip (tn.getD "unknown")
    some (if VALID_TOOLS.contains name then name else "unknown", ti.getD task_desc)

/-- Oracle for one tool dispatch (lines 252-257): the returned text, or
the message of an exception raised by the tool wrapper. -/
inductive ToolRun where
  | ok (out : String)
  | exc (e : String)
deriving DecidableEq

/-- Oracles consumed by execute_tasks, indexed by the file line number:
tool selection, tool dispatch and the review LLM reply. -/
structure Env where
  sel : Nat → SelLLM
  run : Nat → ToolRun
  rev : Nat → Option String

/-- review_and_repair (lines 272-279): the review string seen by the
caller.  A None or empty LLM reply yields the fixed failure text, any
other reply is stripped.  (The 2000-character truncation at line 273
affects only the prompt sent to the LLM.) -/
def review_and_repair (resp : Option String) : String :=
  match resp with
  | none => "Review failed."
  | some r => if r = "" then "Review failed." else pyStrip r

/-- Lines 179-187: incomplete-task detection for one stripped line,
returning the checkbox prefix and the task description. -/
def parseTaskLine (line : String) : Option (String × String) :=
  let ls := pyStrip line
  if startsWithStr ls "- [ ]" || startsWithStr ls "* [ ]" then
    match pySplit1 ls "]" with
    | some p => some (p.1 ++ "] ", pyStrip p.2)
    | none => none
  else if containsSub ls ". [ ]" then
    match pySplit1 ls ". [ ]" with
    | some p =>
      if pyIsDigit p.1 then
        match pySplit1 ls "]" with
        | some q => some (p.1 ++ ". [ ] ", pyStrip q.2)
        | none => none
      else none
    | none => none
  else none

/-- Line 262: the replacement line for a task that passed review. -/
def markDoneLine (pre desc : String) : String :=
  pyReplace pre "[ ]" "[x]" ++ desc ++ "\n"

/-- Observable external requests made while executing one task: the
tool-selection prompt (line 214), the tool dispatch (lines 252-254) and
the review prompt (line 275, output truncated to 2000 characters). -/
inductive Action where
  | selPrompt (i : Nat) (desc : String)
  | dispatch (i : Nat) (tool input : String)
  | reviewPrompt (i : Nat) (desc output : String)
deriving DecidableEq, Repr

def actIdx : Action → Nat
  | .selPrompt i _ => i
  | .dispatch i _ _ => i
  | .reviewPrompt i _ _ => i

def isDispatchAt (i : Nat) : Action → Bool
  | .dispatch j _ _ => j = i
  | _ => false

/-- Number of tool dispatches recorded for file line i. -/
def dispatchCount (tr : List Action) (i : Nat) : Nat :=
  (tr.filter (isDispatchAt i)).length

inductive StepStatus where
  | done
  | failedReview
  | skippedUnknown
  | selectError
deriving DecidableEq, Repr

/-- The effect of processing one incomplete task line: the written-back
line, whether all_tasks_ok survives, whether the loop breaks, and the
external requests made. -/
structure StepOut where
  newLine : String
  keepOk : Bool
  halt : Bool
  status : StepStatus
  acts : List Action
deriving DecidableEq, Repr

/-- Lines 260-263: the post-step judgment.  The task is marked complete
iff the review text contains satisfactory (case-insensitive) and no tool
exception occurred; otherwise the line is restored, all_tasks_ok is
cleared and the loop breaks. -/
def judgeStep (i : Nat) (line pre desc output : String) (err : Bool)
    (rev : Option String) (acts : List Action) : StepOut :=
  if containsSub (lowerStr (review_and_repair rev)) "satisfactory" && !err then
    { newLine := markDoneLine pre desc, keepOk := true, halt := false,
      status := .done,
      acts := acts ++ [Action.reviewPrompt i desc (pyTrunc 2000 output)] }
  else
    { newLine := line, keepOk := false, halt := true,
      status := .failedReview,
      acts := acts ++ [Action.reviewPrompt i desc (pyTrunc 2000 output)] }

/-- Lines 190-263: processing of one incomplete task line.  The none
tool skips dispatch with a fixed output; the unknown tool restores the
line, clears all_tasks_ok and continues with the next line (line 258);
real tools are dispatched, converting a raised exception into an error
output with err set (line 257). -/
def processStep (env : Env) (i : Nat) (line pre desc : String) : StepOut :=
  match selName (env.sel i) desc with
  | none =>
    { newLine := line, keepOk := false, halt := true,
      status := .selectError, acts := [Action.selPrompt i desc] }
  | some ni =>
    if ni.1 = "none" then
      judgeStep i line pre desc "No tool needed." false (env.rev i)
        [Action.selPrompt i desc]
    else if ni.1 = "unknown" then
      { newLine := line, keepOk := false, halt := false,
        status := .skippedUnknown, acts := [Action.selPrompt i desc] }
    else
      match env.run i with
      | .ok out =>
        judgeStep i line pre desc out false (env.rev i)
          [Action.selPrompt i desc, Action.dispatch i ni.1 ni.2]
      | .exc e =>
        judgeStep i line pre desc ("Tool \x27" ++ ni.1 ++ "\x27 error: " ++ e) true
          (env.rev i) [Action.selPrompt i desc, Action.dispatch i ni.1 ni.2]

/-- Run state threaded through the loop of execute_tasks. -/
structure RunState where
  allOk : Bool
  halted : Bool
  trace : List Action
deriving DecidableEq, Repr

/-- Lines 176-267: iteration over the file lines with in-place update,
early break, and the all_tasks_ok flag.  Lines visited after a break and
lines that are not incomplete tasks are written back unchanged. -/
def execTasksAux (env : Env) : Nat → List String → RunState → List String × RunState
  | _, [], st => ([], st)
  | i, line :: rest, st =>
    if st.halted then
      let r := execTasksAux env (i + 1) rest st
      (line :: r.1, r.2)
    else
      match parseTaskLine line with
      | none =>
        let r := execTasksAux env (i + 1) rest st
        (line :: r.1, r.2)
      | some pd =>
        let so := processStep env i line pd.1 pd.2
        let st1 : RunState :=
          { allOk := st.allOk && so.keepOk, halted := so.halt,
            trace := st.trace ++ so.acts }
        let r := execTasksAux env (i + 1) rest st1
        (so.newLine :: r.1, r.2)

/-- execute_tasks (lines 172-269) as a function of the task-file lines
and the oracles: the written-back lines and the final run state. -/
def execute_tasks (env : Env) (lines : List String) : List String × RunState :=
  execTasksAux env 0 lines { allOk := true, halted := false, trace := [] }

/- ## Plan creation: create_task_list (agent.py lines 132-169) -/

/-- The regex of line 153 matched against a stripped line:
optional whitespace, a numbered or bulleted marker, optional whitespace,
an opening bracket, optional whitespace, a closing bracket. -/
def markerTail (l : List Char) : Option (List Char) :=
  match l with
  | '-' :: rest => some rest
  | '*' :: rest => some rest
  | _ =>
    let ds := l.takeWhile Char.isDigit
    if ds.isEmpty then none
    else
      match l.drop ds.length with
      | '.' :: rest => some rest
      | _ => none

def list_item_match (s : String) : Bool :=
  match markerTail (s.toList.dropWhile pyWS) with
  | none => false
  | some rest =>
    match rest.dropWhile pyWS with
    | '[' :: r2 =>
      match r2.dropWhile pyWS with
      | ']' :: _ => true
      | _ => false
    | _ => false

/-- Lines 154-160: extraction of the first contiguous checkbox list,
keeping the original lines, allowing blank lines inside the list and
stopping at the first non-list line after the list started. -/
def extractTaskLines : List String → Bool → List String
  | [], _ => []
  | line :: rest, inList =>
    if list_item_match (pyStrip line) then line :: extractTaskLines rest true
    else if inList && pyStrip line = "" then extractTaskLines rest true
    else if inList then []
    else extractTaskLines rest false

inductive PlanResult where
  | llmFailed
  | invalid (printed excMsg : String)
  | ok (cleaned : String)
deriving DecidableEq

/-- Lines 152-160: the cleaned task list markdown — the joined extracted
lines, or the empty string when nothing was extracted. -/
def cleanedTaskList (md : String) : String :=
  if (extractTaskLines (pySplitLines (pyStrip md)) false).isEmpty then ""
  else joinNL (extractTaskLines (pySplitLines (pyStrip md)) false)

/-- The parsing core of create_task_list (lines 149-162) as a function of
the send_prompt response oracle.  A None response raises at line 150; an
empty extraction prints a diagnostic containing the raw response and
raises a ValueError at line 162 (the invalid constructor carries the
printed diagnostic and the exception message); otherwise the extracted
lines are joined and written to the task file. -/
def create_task_list (resp : Option String) : PlanResult :=
  match resp with
  | none => .llmFailed
  | some md =>
    if cleanedTaskList md = "" then
      .invalid ("Error: Could not extract task list from LLM response. Raw:\n" ++ md)
        "LLM produced invalid task list format or no list found."
    else .ok (cleanedTaskList md)

/- ## Final review and workflow: agent.py lines 115-129 and 282-333 -/

/-- Oracles for final_review: the task-file existence check, the file
read, and the summarization LLM reply. -/
structure FinalEnv where
  fileExists : Bool
  readResult : Except String String
  summaryResp : Option String

/-- final_review (lines 282-333): the messages it sends plus either the
raised exception message (the missing-file check at line 287) or the
returned string.  A falsy summarization reply is reported with an error
message and recovered as a fixed returned string (lines 325-328). -/
def final_review (model : String) (env : FinalEnv) : List String × Except String String :=
  let m0 := "Agent: Requesting final summary from " ++ model ++ "..."
  if !env.fileExists then
    ([m0], .error "Task file not found for final review")
  else
    match env.readResult with
    | .error e =>
      ([m0, "Agent Error: Cannot read task file: " ++ e], .ok "Error reading task file.")
    | .ok _content =>
      match env.summaryResp with
      | none =>
        ([m0, "Agent Error: LLM failed final response."],
         .ok "Agent Error: Could not generate final response.")
      | some r =>
        if r = "" then
          ([m0, "Agent Error: LLM failed final response."],
           .ok "Agent Error: Could not generate final response.")
        else ([m0, "Agent: Final summary generated."], .ok (pyStrip r))

/-- Oracles for handle_agent_workflow (lines 115-129): outcomes of the
awaited phases.  Strings on the error side are exception messages; an
exception lands in the generic report of line 128. -/
structure WorkflowEnv where
  planningModel : String
  selectedModel : String
  createTask : Except String String
  execTasksRes : Except String Unit
  finalEnv : FinalEnv

/-- handle_agent_workflow (lines 115-129): the ordered websocket messages
of one run (messages sent from inside create_task_list and execute_tasks
are omitted; final_review messages are included).  Any exception is
reported as a Workflow error (line 128) and the finally block always
sends the completion notice (line 129). -/
def handle_agent_workflow (env : WorkflowEnv) : List String :=
  let m :=
    ["Agent: Processing request...",
     "Agent: Creating task list using " ++ env.planningModel ++ "..."]
  let body :=
    match env.createTask with
    | .error e => m ++ ["Agent Error: Workflow error: " ++ e]
    | .ok base =>
      let m := m ++
        ["Agent: Task list created: " ++ base,
         "Agent: Executing tasks (Review LLM: " ++ env.selectedModel ++ ")..."]
      match env.execTasksRes with
      | .error e => m ++ ["Agent Error: Workflow error: " ++ e]
      | .ok _ =>
        let m := m ++ ["Agent: Final review (LLM: " ++ env.planningModel ++ ")..."]
        let fr := final_review env.planningModel env.finalEnv
        match fr.2 with
        | .error e => m ++ fr.1 ++ ["Agent Error: Workflow error: " ++ e]
        | .ok final_response => m ++ fr.1 ++ ["Agent: Final Response: " ++ final_response]
  body ++ ["Agent: Workflow complete."]

/- ## Call-site keyword binding: main.py lines 74-78, agent.py lines 115 and 149, llm_handler.py lines 165 and 219 -/

/-- Parameter names of handle_agent_workflow (agent.py line 115). -/
def handle_agent_workflow_params : List String :=
  ["user_query", "selected_model", "websocket"]

/-- Keyword names used at the call site in main.py lines 74-78. -/
def websocket_call_kwargs : List String :=
  ["user_query", "planner_model_name", "websocket"]

/-- Parameter names of simple_prompt (llm_handler.py line 165); send_prompt
is bound to simple_prompt at llm_handler.py line 219. -/
def simple_prompt_params : List String := ["model", "prompt", "system"]

/-- Keyword names used by the send_prompt call in create_task_list
(agent.py line 149). -/
def create_task_list_kwargs : List String := ["model_name", "prompt", "system_message"]

/-- Python call semantics for keyword arguments against a def whose
parameters are all positional-or-keyword and which declares no **kwargs:
the call raises TypeError, before entering the body, iff some keyword is
not a parameter name. -/
def pyAcceptsKwargs (params kwargs : List String) : Bool :=
  kwargs.all (fun k => params.contains k)

/-- The first keyword rejected by the binding, if any. -/
def unexpectedKwarg (params kwargs : List String) : Option String :=
  kwargs.find? (fun k => !params.contains k)

inductive CallOutcome (α : Type) where
  | typeError (kw : String)
  | returns (a : α)

/-- A Python keyword call: the body runs only when every keyword binds. -/
def pyCallKw (params kwargs : List String) (body : Unit → α) : CallOutcome α :=
  match unexpectedKwarg params kwargs with
  | some kw => CallOutcome.typeError kw
  | none => CallOutcome.returns (body ())

/-- One query iteration of websocket_endpoint (main.py lines 43-91): the
handle_agent_workflow call at lines 74-78 under Python keyword binding.
A TypeError escapes to the generic except at lines 83-89, which sends a
single unexpected-server-error message; the workflow body never runs. -/
def websocket_endpoint_iteration (workflowBody : Unit → List String) : List String :=
  match pyCallKw handle_agent_workflow_params websocket_call_kwargs workflowBody with
  | .typeError kw =>
    ["Agent Error: An unexpected server error occurred: handle_agent_workflow() got an unexpected keyword argument \x27" ++ kw ++ "\x27"]
  | .returns msgs => msgs

/- ## Concrete runs used as counterexamples and witnesses -/

/-- C1 run: the tool result reports exit code 0 with a non-empty output
section containing the word error, and the review LLM does not say
satisfactory. -/
def envC1 : Env where
  sel := fun _ => .parsed (some "shell_terminal") (some "echo hi")
  run := fun _ => .ok "Exit Code: 0\nOutput:\nerror found in data"
  rev := fun _ => some "Issue: the output mentions an error."

def linesC1 : List String := ["1. [ ] run the command\n"]

/-- C2 run: the step fails its review on the only attempt. -/
def envC2 : Env where
  sel := fun _ => .parsed (some "shell_terminal") (some "echo hi")
  run := fun _ => .ok "Exit Code: 1"
  rev := fun _ => some "Issue: the command failed."

def linesC2 : List String := ["1. [ ] run the command\n"]

/-- C3 run: step 1 succeeds with a distinctive output, step 2 is a code
step whose dispatched input is fixed by its own tool selection. -/
def envC3 : Env where
  sel := fun i =>
    if i = 0 then .parsed (some "shell_terminal") (some "echo SECRET42")
    else .parsed (some "code_interpreter") (some "print(1)")
  run := fun i =>
    if i = 0 then .ok "Exit Code: 0\nOutput:\nSECRET42"
    else .ok "Exit Code: 0\nOutput:\n1"
  rev := fun _ => some "Satisfactory"

def linesC3 : List String := ["1. [ ] produce the secret\n", "2. [ ] compute\n"]

/-- C4 run: step 1 selects the unknown tool foo, step 2 is a normal
successful step. -/
def envC4 : Env where
  sel := fun i =>
    if i = 0 then .parsed (some "foo") (some "whatever")
    else .parsed (some "shell_terminal") (some "echo hi")
  run := fun _ => .ok "Exit Code: 0\nOutput:\nhi"
  rev := fun _ => some "Satisfactory"

def linesC4 : List String := ["1. [ ] use the foo tool\n", "2. [ ] say hi\n"]

/-- The bad-argument condition as worded by claim C10: the token contains
one of the blacklisted characters (every pattern other than ..), or has
.. as a path component. -/
def claimBadArg (a : String) : Prop :=
  (∃ p ∈ ARGUMENT_BLACKLIST_PATTERNS, p ≠ ".." ∧ containsSub a p = true) ∨
    (pySplitAll a "/").contains ".." = true

/-- C8 run of the code interpreter: the script attempt times out. -/
def envC8 : CodeEnv :=
  { tempFileError := none, outerExc := none, att1 := AttemptOutcome.timedOut,
    nameExtract := none, pipExit := 0, pipStderr := "", att2 := AttemptOutcome.timedOut }

/- ## Helper lemmas -/

theorem toList_append (s t : String) : (s ++ t).toList = s.toList ++ t.toList := by
  cases s; cases t; rfl

theorem startsWith_append_left (s t pre : String) (h : startsWithStr s pre = true) :
    startsWithStr (s ++ t) pre = true := by
  unfold startsWithStr at h ⊢
  rw [toList_append, List.isPrefixOf_iff_prefix] at *
  exact h.trans ⟨_, rfl⟩

theorem tailsList_self_mem (l : List Char) : l ∈ tailsList l := by
  cases l <;> simp [tailsList]

theorem tailsList_append_mem (a b : List Char) : b ∈ tailsList (a ++ b) := by
  induction a with
  | nil => simpa using tailsList_self_mem b
  | cons c cs ih => simp [tailsList]; right; exact ih

theorem containsSub_append_right (a b : String) : containsSub (a ++ b) b = true := by
  unfold containsSub
  rw [toList_append]
  refine List.any_eq_true.mpr ⟨b.toList, tailsList_append_mem _ _, ?_⟩
  rw [ List.isPrefixOf_iff_prefix]

theorem findSome?_isSome_of_mem {α β : Type} (f : α → Option β) (l : List α)
    (a : α) (ha : a ∈ l) (hf : (f a).isSome = true) : (l.findSome? f).isSome = true := by
  induction l with
  | nil => cases ha
  | cons x xs ih =>
    rw [List.findSome?]
    cases hx : f x with
    | some b => simp
    | none =>
      simp only []
      rcases List.mem_cons.mp ha with h | h
      · subst h; rw [hx] at hf; cases hf
      · exact ih h

theorem checkArg_some_starts_error (a e : String) (h : checkArg a = some e) :
    startsWithStr e "Error:" = true := by
  unfold checkArg at h
  split at h
  · split at h
    · rw [Option.some_inj.symm] at h
      cases h
      apply startsWith_append_left
      apply startsWith_append_left
      decide
    · dsimp only at h
      split at h
      · cases h
        apply startsWith_append_left
        apply startsWith_append_left
        apply startsWith_append_left
        decide
      · cases h
  · cases h

theorem execTasksAux_halted (env : Env) (ls : List String) :
    ∀ (n : Nat) (st : RunState), st.halted = true →
      execTasksAux env n ls st = (ls, st) := by
  induction ls with
  | nil => intro n st _; rfl
  | cons line rest ih =>
    intro n st h
    simp [execTasksAux, h, ih (n + 1) st h]

theorem actIdx_of_isDispatchAt (a : Action) (j : Nat) (h : isDispatchAt j a = true) :
    actIdx a = j := by
  cases a with
  | dispatch k t i => simpa [isDispatchAt, actIdx] using h
  | selPrompt k d => simp [isDispatchAt] at h
  | reviewPrompt k d o => simp [isDispatchAt] at h

theorem dispatchCount_append (l₁ l₂ : List Action) (j : Nat) :
    dispatchCount (l₁ ++ l₂) j = dispatchCount l₁ j + dispatchCount l₂ j := by
  simp [dispatchCount, List.filter_append]

theorem dispatchCount_eq_zero (l : List Action) (j : Nat)
    (h : ∀ a ∈ l, isDispatchAt j a = false) : dispatchCount l j = 0 := by
  unfold dispatchCount
  rw [List.filter_eq_nil_iff.mpr (fun a ha => by simp [h a ha])]
  rfl

theorem judgeStep_acts (i : Nat) (line pre desc output : String) (err : Bool)
    (rev : Option String) (acts : List Action) :
    (judgeStep i line pre desc output err rev acts).acts =
      acts ++ [Action.reviewPrompt i desc (pyTrunc 2000 output)] := by
  unfold judgeStep
  split <;> rfl

theorem judgeStep_newLine (i : Nat) (line pre desc output : String) (err : Bool)
    (rev : Option String) (acts : List Action) :
    (judgeStep i line pre desc output err rev acts).newLine = line ∨
      (judgeStep i line pre desc output err rev acts).newLine = markDoneLine pre desc := by
  unfold judgeStep
  split
  · right; rfl
  · left; rfl

theorem processStep_acts_idx (env : Env) (i : Nat) (line pre desc : String) :
    ∀ a ∈ (processStep env i line pre desc).acts, actIdx a = i := by
  unfold processStep
  split
  · intro a ha; simp at ha; subst ha; rfl
  · split
    · rw [judgeStep_acts]
      intro a ha
      simp at ha
      rcases ha with h | h <;> (subst h; rfl)
    · split
      · intro a ha; simp at ha; subst ha; rfl
      · split <;>
          (rw [judgeStep_acts]; intro a ha; simp at ha;
            rcases ha with h | h | h <;> (subst h; rfl))

theorem processStep_dispatch_le (env : Env) (i : Nat) (line pre desc : String) (j : Nat) :
    dispatchCount (processStep env i line pre desc).acts j ≤ 1 := by
  unfold processStep
  split
  · simp [dispatchCount, isDispatchAt, List.filter]
  · split
    · rw [judgeStep_acts]; simp [dispatchCount, isDispatchAt, List.filter]
    · split
      · simp [dispatchCount, isDispatchAt, List.filter]
      · split <;>
          (rw [judgeStep_acts]; simp [dispatchCount, isDispatchAt, List.filter];
            split <;> simp)

theorem execTasksAux_trace_spec (env : Env) (ls : List String) :
    ∀ (n : Nat) (st : RunState),
      ∃ Δ, (execTasksAux env n ls st).2.trace = st.trace ++ Δ ∧
        (∀ a ∈ Δ, n ≤ actIdx a) ∧ (∀ j, dispatchCount Δ j ≤ 1) := by
  induction ls with
  | nil =>
    intro n st
    exact ⟨[], by simp [execTasksAux], by simp, fun j => by simp [dispatchCount]⟩
  | cons line rest ih =>
    intro n st
    cases hst : st.halted with
    | true =>
      obtain ⟨Δ, h1, h2, h3⟩ := ih (n + 1) st
      refine ⟨Δ, ?_, fun a ha => le_trans (Nat.le_succ n) (h2 a ha), h3⟩
      simpa [execTasksAux, hst] using h1
    | false =>
      cases hp : parseTaskLine line with
      | none =>
        obtain ⟨Δ, h1, h2, h3⟩ := ih (n + 1) st
        refine ⟨Δ, ?_, fun a ha => le_trans (Nat.le_succ n) (h2 a ha), h3⟩
        simpa [execTasksAux, hst, hp] using h1
      | some pd =>
        obtain ⟨Δ, h1, h2, h3⟩ := ih (n + 1)
          { allOk := st.allOk && (processStep env n line pd.1 pd.2).keepOk,
            halted := (processStep env n line pd.1 pd.2).halt,
            trace := st.trace ++ (processStep env n line pd.1 pd.2).acts }
        refine ⟨(processStep env n line pd.1 pd.2).acts ++ Δ, ?_, ?_, ?_⟩
        · rw [show (execTasksAux env n (line :: rest) st).2 =
              (execTasksAux env (n + 1) rest
                { allOk := st.allOk && (processStep env n line pd.1 pd.2).keepOk,
                  halted := (processStep env n line pd.1 pd.2).halt,
                  trace := st.trace ++ (processStep env n line pd.1 pd.2).acts }).2 by
              simp [execTasksAux, hst, hp]]
          rw [h1]
          simp [List.append_assoc]
        · intro a ha
          rcases List.mem_append.mp ha with h | h
          · exact Nat.le_of_eq (processStep_acts_idx env n line pd.1 pd.2 a h).symm
          · exact le_trans (Nat.le_succ n) (h2 a h)
        · intro j
          rw [dispatchCount_append]
          by_cases hj : j = n
          · subst hj
            have hz : dispatchCount Δ j = 0 := by
              apply dispatchCount_eq_zero
              intro a ha
              cases hd : isDispatchAt j a with
              | false => rfl
              | true =>
                have := actIdx_of_isDispatchAt a j hd
                have := h2 a ha
                omega
            rw [hz]
            simpa using processStep_dispatch_le env j line pd.1 pd.2 j
          · have hz : dispatchCount (processStep env n line pd.1 pd.2).acts j = 0 := by
              apply dispatchCount_eq_zero
              intro a ha
              cases hd : isDispatchAt j a with
              | false => rfl
              | true =>
                have h1' := actIdx_of_isDispatchAt a j hd
                have h2' := processStep_acts_idx env n line pd.1 pd.2 a ha
                exact absurd (h1' ▸ h2') hj
            rw [hz]
            simpa using h3 j

theorem processStep_newLine (env : Env) (i : Nat) (line pre desc : String) :
    (processStep env i line pre desc).newLine = line ∨
      (processStep env i line pre desc).newLine = markDoneLine pre desc := by
  unfold processStep
  split
  · left; rfl
  · split
    · exact judgeStep_newLine _ _ _ _ _ _ _ _
    · split
      · left; rfl
      · split <;> exact judgeStep_newLine _ _ _ _ _ _ _ _

theorem execTasksAux_lines_spec (env : Env) (ls : List String) :
    ∀ (n : Nat) (st : RunState),
      List.Forall₂
        (fun old new => new = old ∨
          ∃ pre desc, parseTaskLine old = some (pre, desc) ∧ new = markDoneLine pre desc)
        ls (execTasksAux env n ls st).1 := by
  induction ls with
  | nil => intro n st; simp [execTasksAux]
  | cons line rest ih =>
    intro n st
    cases hst : st.halted with
    | true =>
      have hl : (execTasksAux env n (line :: rest) st).1 =
          line :: (execTasksAux env (n + 1) rest st).1 := by
        simp [execTasksAux, hst]
      rw [hl]
      exact List.Forall₂.cons (Or.inl rfl) (ih (n + 1) st)
    | false =>
      cases hp : parseTaskLine line with
      | none =>
        have hl : (execTasksAux env n (line :: rest) st).1 =
            line :: (execTasksAux env (n + 1) rest st).1 := by
          simp [execTasksAux, hst, hp]
        rw [hl]
        exact List.Forall₂.cons (Or.inl rfl) (ih (n + 1) st)
      | some pd =>
        have hhead :
            (processStep env n line pd.1 pd.2).newLine = line ∨
              ∃ pre desc, parseTaskLine line = some (pre, desc) ∧
                (processStep env n line pd.1 pd.2).newLine = markDoneLine pre desc := by
          rcases processStep_newLine env n line pd.1 pd.2 with h | h
          · exact Or.inl h
          · exact Or.inr ⟨pd.1, pd.2, by simpa using hp, h⟩
        have hl : (execTasksAux env n (line :: rest) st).1 =
            (processStep env n line pd.1 pd.2).newLine ::
              (execTasksAux env (n + 1) rest
                { allOk := st.allOk && (processStep env n line pd.1 pd.2).keepOk,
                  halted := (processStep env n line pd.1 pd.2).halt,
                  trace := st.trace ++ (processStep env n line pd.1 pd.2).acts }).1 := by
          simp [execTasksAux, hst, hp]
        rw [hl]
        exact List.Forall₂.cons hhead (ih (n + 1) _)

theorem isPrefixOf_eq_append (p l : List Char) (h : p.isPrefixOf l = true) :
    l = p ++ l.drop p.length := by
  rw [ List.isPrefixOf_iff_prefix] at h
  obtain ⟨t, ht⟩ := h
  rw [← ht, List.drop_left]

theorem splitFirstAux_eq (pat : List Char) (l x y : List Char)
    (h : splitFirstAux pat l = some (x, y)) : l = x ++ pat ++ y := by
  induction l generalizing x y with
  | nil =>
    unfold splitFirstAux at h
    split at h
    · rename_i hp
      simp at h
      obtain ⟨hx, hy⟩ := h
      subst hx; subst hy
      simp [List.isEmpty_iff.mp hp]
    · cases h
  | cons c cs ih =>
    unfold splitFirstAux at h
    split at h
    · rename_i hpre
      simp at h
      obtain ⟨hx, hy⟩ := h
      subst hx; subst hy
      simpa using isPrefixOf_eq_append pat (c :: cs) hpre
    · rename_i hpre
      split at h
      · rename_i a b heq
        simp at h
        obtain ⟨hx, hy⟩ := h
        subst hx; subst hy
        have := ih a b heq
        simp [this]
      · cases h

theorem splitAllAux_infix (pat : List Char) (f : Nat) :
    ∀ (l s : List Char), s ∈ splitAllAux pat f l → ∃ u v, l = u ++ s ++ v := by
  induction f with
  | zero =>
    intro l s h
    simp [splitAllAux] at h
    exact ⟨[], [], by simp [h]⟩
  | succ f ih =>
    intro l s h
    unfold splitAllAux at h
    split at h
    · simp at h
      exact ⟨[], [], by simp [h]⟩
    · rename_i a b heq
      have hl := splitFirstAux_eq pat l a b heq
      simp at h
      rcases h with h | h
      · subst h
        exact ⟨[], pat ++ b, by simp [hl]⟩
      · obtain ⟨u, v, huv⟩ := ih b s h
        exact ⟨a ++ pat ++ u, v, by simp [hl, huv]⟩

theorem containsSub_of_toList_infix (a p : String) (u v : List Char)
    (h : a.toList = u ++ p.toList ++ v) : containsSub a p = true := by
  unfold containsSub
  apply List.any_eq_true.mpr
  refine ⟨p.toList ++ v, ?_, ?_⟩
  · rw [h, List.append_assoc]
    exact tailsList_append_mem u (p.toList ++ v)
  · rw [ List.isPrefixOf_iff_prefix]
    exact ⟨_, rfl⟩

theorem containsSub_of_mem_pySplitAll (a sep s : String)
    (h : s ∈ pySplitAll a sep) : containsSub a s = true := by
  unfold pySplitAll at h
  simp at h
  obtain ⟨l, hl, hs⟩ := h
  obtain ⟨u, v, huv⟩ := splitAllAux_infix sep.toList a.toList.length a.toList l hl
  apply containsSub_of_toList_infix a s u v
  rw [huv, ← hs]
  rfl

theorem claimBadArg_checkArg (a : String) (h : claimBadArg a) :
    (checkArg a).isSome = true := by
  have hguard : (ARGUMENT_BLACKLIST_PATTERNS.any fun p => containsSub a p) = true := by
    rcases h with ⟨p, hp, _, hsub⟩ | hdot
    · exact List.any_eq_true.mpr ⟨p, hp, hsub⟩
    · have hmem : (".." : String) ∈ pySplitAll a "/" := by
        simpa using hdot
      have hc := containsSub_of_mem_pySplitAll a "/" ".." hmem
      exact List.any_eq_true.mpr ⟨"..", by decide, hc⟩
  unfold checkArg
  rw [if_pos hguard]
  by_cases hdd : ((pySplitAll a "/").contains "..") = true
  · rw [if_pos hdd]
    rfl
  · rw [if_neg hdd]
    rcases h with ⟨p, hp, hne, hsub⟩ | hdot
    · have hpd : p ∈ ARGUMENT_BLACKLIST_PATTERNS.filter
          (fun q => q ≠ ".." && containsSub a q) :=
        List.mem_filter.mpr ⟨hp, by simp [hne, hsub]⟩
      dsimp only
      rw [if_pos ?_]
      · rfl
      · cases hfil : ARGUMENT_BLACKLIST_PATTERNS.filter
            (fun q => q ≠ ".." && containsSub a q) with
        | nil => rw [hfil] at hpd; cases hpd
        | cons x xs => simp [hfil]
    · exact absurd hdot hdd

theorem string_eta (s : String) : (⟨s.toList⟩ : String) = s := by
  cases s
  rfl

theorem pyWS_of_isDigit (c : Char) (h : c.isDigit = true) : pyWS c = false := by
  cases hw : pyWS c
  · rfl
  · exfalso
    simp [pyWS] at hw
    rcases hw with
      (((((((((((rfl | rfl) | rfl) | rfl) | rfl) | rfl) | rfl) | rfl) | rfl) | rfl) | rfl) | rfl) <;>
      exact absurd h (by decide)

theorem dropWhile_all_of_head (p : Char → Bool) (h : Char) (t : List Char)
    (hh : p h = false) : List.dropWhile p (h :: t) = h :: t := by
  rw [List.dropWhile_cons, if_neg (by simp [hh])]

theorem pyStrip_shape (K r : List Char) (k0 kl : Char)
    (hhead : K.head? = some k0) (hk0 : pyWS k0 = false)
    (hlast : K.getLast? = some kl) (hkl : pyWS kl = false) :
    ∃ rr, (pyStrip ⟨K ++ r⟩).toList = K ++ rr := by
  cases K with
  | nil => cases hhead
  | cons h K2 =>
    have hh : h = k0 := by simpa using hhead
    subst hh
    have hcore : (pyStrip ⟨(h :: K2) ++ r⟩).toList =
        List.reverse (List.dropWhile pyWS
          (List.reverse (List.dropWhile pyWS ((h :: K2) ++ r)))) := rfl
    have hleft : List.dropWhile pyWS ((h :: K2) ++ r) = (h :: K2) ++ r :=
      dropWhile_all_of_head pyWS h (K2 ++ r) hk0
    have hKrev : List.dropWhile pyWS (h :: K2).reverse = (h :: K2).reverse := by
      cases hrv : (h :: K2).reverse with
      | nil => simp at hrv
      | cons x xs =>
        have hx : x = kl := by
          have h1 := List.head?_reverse (h :: K2)
          rw [hrv] at h1
          rw [hlast] at h1
          simpa using h1
        rw [hx]
        exact dropWhile_all_of_head pyWS kl xs hkl
    rw [hcore, hleft, List.reverse_append, List.dropWhile_append]
    by_cases he : (List.dropWhile pyWS r.reverse).isEmpty = true
    · rw [if_pos he, hKrev]
      exact ⟨[], by simp⟩
    · rw [if_neg he]
      exact ⟨List.reverse (List.dropWhile pyWS r.reverse), by simp⟩

theorem startsWith_false_of_take (K r : List Char) (pat : String)
    (hlen : pat.toList.length = K.length) (hne : pat.toList ≠ K) :
    startsWithStr ⟨K ++ r⟩ pat = false := by
  cases hs : startsWithStr ⟨K ++ r⟩ pat
  · rfl
  · exfalso
    unfold startsWithStr at hs
    rw [ List.isPrefixOf_iff_prefix, List.prefix_iff_eq_take] at hs
    rw [show (String.toList ⟨K ++ r⟩) = K ++ r from rfl, hlen, List.take_left] at hs
    exact hne hs

theorem startsWith_false_of_head (d : Char) (rest : List Char) (p0 : Char) (pp : List Char)
    (pat : String) (hp : pat.toList = p0 :: pp) (hne : ¬ p0 = d) :
    startsWithStr ⟨d :: rest⟩ pat = false := by
  unfold startsWithStr
  rw [show (String.toList ⟨d :: rest⟩) = d :: rest from rfl, hp]
  simp [List.isPrefixOf, hne]

theorem replaceAux_skip (p0 : Char) (pp rep : List Char) :
    ∀ ds : List Char, (∀ c ∈ ds, ¬ p0 = c) →
      ∀ tail : List Char,
        replaceAux (p0 :: pp) rep (ds.length + tail.length) (ds ++ tail) =
          ds ++ replaceAux (p0 :: pp) rep tail.length tail := by
  intro ds
  induction ds with
  | nil => intro _ tail; simp
  | cons d dd ih =>
    intro hds tail
    have hne : ¬ p0 = d := hds d (by simp)
    have hlen : (d :: dd).length + tail.length = (dd.length + tail.length) + 1 := by
      simp [List.length_cons]
      omega
    rw [hlen]
    have hcond : (!(p0 :: pp).isEmpty &&
        (p0 :: pp).isPrefixOf (d :: (dd ++ tail))) = false := by
      simp [List.isPrefixOf, hne]
    show replaceAux (p0 :: pp) rep ((dd.length + tail.length) + 1) (d :: (dd ++ tail)) =
      (d :: dd) ++ replaceAux (p0 :: pp) rep tail.length tail
    simp only [replaceAux, hcond, Bool.false_eq_true, if_false]
    rw [ih (fun c hc => hds c (by simp [hc])) tail]
    rfl

theorem splitFirst_dash (t : List Char) :
    splitFirstAux "]".toList ('-' :: ' ' :: '[' :: ' ' :: ']' :: t) =
      some (['-', ' ', '[', ' '], t) := by
  simp [splitFirstAux, List.isPrefixOf]

theorem splitFirst_star (t : List Char) :
    splitFirstAux "]".toList ('*' :: ' ' :: '[' :: ' ' :: ']' :: t) =
      some (['*', ' ', '[', ' '], t) := by
  simp [splitFirstAux, List.isPrefixOf]

theorem markDone_dash (desc : String) :
    (markDoneLine "- [ ] " desc).toList =
      "- [x]".toList ++ (' ' :: (desc.toList ++ ['\n'])) := by
  have h1 : pyReplace "- [ ] " "[ ]" "[x]" = "- [x] " := by decide
  unfold markDoneLine
  rw [h1, toList_append, toList_append]
  rfl

theorem markDone_star (desc : String) :
    (markDoneLine "* [ ] " desc).toList =
      "* [x]".toList ++ (' ' :: (desc.toList ++ ['\n'])) := by
  have h1 : pyReplace "* [ ] " "[ ]" "[x]" = "* [x] " := by decide
  unfold markDoneLine
  rw [h1, toList_append, toList_append]
  rfl

theorem markDone_num (nds : List Char) (desc : String)
    (hdig : ∀ c ∈ nds, c.isDigit = true) :
    (markDoneLine (⟨nds⟩ ++ ". [ ] ") desc).toList =
      (nds ++ ". [x]".toList) ++ (' ' :: (desc.toList ++ ['\n'])) := by
  have hds : ∀ c ∈ nds ++ ['.', ' '], ¬ '[' = c := by
    intro c hc he
    rcases List.mem_append.mp hc with hC | hC
    · have hd := hdig c hC
      rw [← he] at hd
      exact absurd hd (by decide)
    · rcases (by simpa using hC : c = '.' ∨ c = ' ') with rfl | rfl <;> cases he
  have hpre : (pyReplace (⟨nds⟩ ++ ". [ ] ") "[ ]" "[x]").toList =
      nds ++ ". [x] ".toList := by
    unfold pyReplace
    have htl : (String.toList (⟨nds⟩ ++ ". [ ] ")) = nds ++ ". [ ] ".toList := by
      rw [toList_append]
      rfl
    have hassoc : nds ++ ". [ ] ".toList = (nds ++ ['.', ' ']) ++ "[ ] ".toList := by
      rw [List.append_assoc]
      rfl
    have hlen : (nds ++ ". [ ] ".toList).length =
        (nds ++ ['.', ' ']).length + ("[ ] ".toList).length := by
      simp
    rw [htl, hlen, hassoc]
    rw [show ("[ ]".toList) = '[' :: [' ', ']'] from rfl]
    rw [replaceAux_skip '[' [' ', ']'] "[x]".toList (nds ++ ['.', ' ']) hds "[ ] ".toList]
    rw [show replaceAux ('[' :: [' ', ']']) "[x]".toList ("[ ] ".toList).length
        "[ ] ".toList = "[x] ".toList from by decide]
    rw [List.append_assoc]
    rfl
  unfold markDoneLine
  rw [toList_append, toList_append, hpre]
  simp [List.append_assoc]

theorem parse_pre_shape (line pre desc : String)
    (h : parseTaskLine line = some (pre, desc)) :
    pre = "- [ ] " ∨ pre = "* [ ] " ∨
      ∃ nds : List Char, nds ≠ [] ∧ (∀ c ∈ nds, c.isDigit = true) ∧
        pre = ⟨nds⟩ ++ ". [ ] " := by
  unfold parseTaskLine at h
  dsimp only at h
  split at h
  · rename_i hstart
    rw [Bool.or_eq_true] at hstart
    rcases hstart with hs | hs
    · unfold startsWithStr at hs
      rw [ List.isPrefixOf_iff_prefix] at hs
      obtain ⟨t, ht⟩ := hs
      have hsp : pySplit1 (pyStrip line) "]" = some ("- [ ", ⟨t⟩) := by
        unfold pySplit1
        rw [← ht]
        rw [show ("- [ ]".toList ++ t) = '-' :: ' ' :: '[' :: ' ' :: ']' :: t from rfl]
        rw [splitFirst_dash t]
        rfl
      rw [hsp] at h
      simp at h
      left
      rw [← h.1]
    · unfold startsWithStr at hs
      rw [ List.isPrefixOf_iff_prefix] at hs
      obtain ⟨t, ht⟩ := hs
      have hsp : pySplit1 (pyStrip line) "]" = some ("* [ ", ⟨t⟩) := by
        unfold pySplit1
        rw [← ht]
        rw [show ("* [ ]".toList ++ t) = '*' :: ' ' :: '[' :: ' ' :: ']' :: t from rfl]
        rw [splitFirst_star t]
        rfl
      rw [hsp] at h
      simp at h
      right
      left
      rw [← h.1]
  · split at h
    · split at h
      · rename_i p hp
        split at h
        · rename_i hdig
          split at h
          · rename_i q hq
            simp at h
            right
            right
            refine ⟨p.1.toList, ?_, ?_, ?_⟩
            · intro hnil
              rw [pyIsDigit] at hdig
              rw [hnil] at hdig
              simp at hdig
            · intro c hc
              rw [pyIsDigit] at hdig
              rw [Bool.and_eq_true] at hdig
              exact List.all_eq_true.mp hdig.2 c hc
            · rw [← h.1, string_eta]
          · cases h
        · cases h
      · cases h
    · cases h

theorem parse_none_of_strip_shape (m : String) (K r2 : List Char)
    (hstrip : (pyStrip m).toList = K ++ r2)
    (h1 : startsWithStr ⟨K ++ r2⟩ "- [ ]" = false)
    (h2 : startsWithStr ⟨K ++ r2⟩ "* [ ]" = false)
    (h3 : ∀ bx y, splitFirstAux ". [ ]".toList (K ++ r2) = some (bx, y) →
      pyIsDigit ⟨bx⟩ = false) :
    parseTaskLine m = none := by
  have hS : pyStrip m = ⟨K ++ r2⟩ := by
    rw [← string_eta (pyStrip m), hstrip]
  unfold parseTaskLine
  dsimp only
  rw [hS, h1, h2]
  simp only [Bool.or_self, Bool.false_eq_true, if_false]
  split
  · cases hsp : pySplit1 ⟨K ++ r2⟩ ". [ ]" with
    | none => rfl
    | some p =>
      have hU : ∃ bx y, splitFirstAux ". [ ]".toList (K ++ r2) = some (bx, y) ∧
          p.1 = ⟨bx⟩ := by
        unfold pySplit1 at hsp
        rw [show (String.toList ⟨K ++ r2⟩) = K ++ r2 from rfl] at hsp
        cases hsf : splitFirstAux ". [ ]".toList (K ++ r2) with
        | none => rw [hsf] at hsp; cases hsp
        | some q =>
          rw [hsf] at hsp
          simp at hsp
          refine ⟨q.1, q.2, by simpa using hsf, ?_⟩
          rw [← hsp]
      obtain ⟨bx, y, hsf, hpq⟩ := hU
      have hdig := h3 bx y hsf
      dsimp only
      rw [hpq, hdig]
      simp
  · rfl

theorem pyIsDigit_false_head (b : Char) (bs : List Char) (hb : b.isDigit = false) :
    pyIsDigit ⟨b :: bs⟩ = false := by
  unfold pyIsDigit
  rw [show (String.toList ⟨b :: bs⟩) = b :: bs from rfl]
  simp [hb]

theorem parse_markDone_none (line pre desc : String)
    (h : parseTaskLine line = some (pre, desc)) :
    parseTaskLine (markDoneLine pre desc) = none := by
  rcases parse_pre_shape line pre desc h with h1 | h1 | ⟨nds, hne, hdigs, h1⟩ <;> subst h1
  · have hm : markDoneLine "- [ ] " desc =
        ⟨"- [x]".toList ++ (' ' :: (desc.toList ++ ['\n']))⟩ := by
      rw [← string_eta (markDoneLine "- [ ] " desc), markDone_dash]
    obtain ⟨r2, hr2⟩ := pyStrip_shape "- [x]".toList (' ' :: (desc.toList ++ ['\n']))
      '-' ']' (by decide) (by decide) (by decide) (by decide)
    rw [hm]
    apply parse_none_of_strip_shape _ "- [x]".toList r2 hr2
    · exact startsWith_false_of_take _ r2 "- [ ]" (by decide) (by decide)
    · exact startsWith_false_of_take _ r2 "* [ ]" (by decide) (by decide)
    · intro bx y hsf
      have heq := splitFirstAux_eq _ _ _ _ hsf
      cases bx with
      | nil => decide
      | cons b bs =>
        have hb : '-' = b := by simpa using congrArg List.head? heq
        exact pyIsDigit_false_head b bs (by rw [← hb]; decide)
  · have hm : markDoneLine "* [ ] " desc =
        ⟨"* [x]".toList ++ (' ' :: (desc.toList ++ ['\n']))⟩ := by
      rw [← string_eta (markDoneLine "* [ ] " desc), markDone_star]
    obtain ⟨r2, hr2⟩ := pyStrip_shape "* [x]".toList (' ' :: (desc.toList ++ ['\n']))
      '*' ']' (by decide) (by decide) (by decide) (by decide)
    rw [hm]
    apply parse_none_of_strip_shape _ "* [x]".toList r2 hr2
    · exact startsWith_false_of_take _ r2 "- [ ]" (by decide) (by decide)
    · exact startsWith_false_of_take _ r2 "* [ ]" (by decide) (by decide)
    · intro bx y hsf
      have heq := splitFirstAux_eq _ _ _ _ hsf
      cases bx with
      | nil => decide
      | cons b bs =>
        have hb : '*' = b := by simpa using congrArg List.head? heq
        exact pyIsDigit_false_head b bs (by rw [← hb]; decide)
  · have hm : markDoneLine (⟨nds⟩ ++ ". [ ] ") desc =
        ⟨(nds ++ ". [x]".toList) ++ (' ' :: (desc.toList ++ ['\n']))⟩ := by
      rw [← string_eta (markDoneLine (⟨nds⟩ ++ ". [ ] ") desc), markDone_num nds desc hdigs]
    obtain ⟨d, nds2, rfl⟩ : ∃ d nds2, nds = d :: nds2 := by
      cases nds with
      | nil => exact absurd rfl hne
      | cons a b => exact ⟨a, b, rfl⟩
    have hd : d.isDigit = true := hdigs d (by simp)
    obtain ⟨r2, hr2⟩ := pyStrip_shape ((d :: nds2) ++ ". [x]".toList)
      (' ' :: (desc.toList ++ ['\n'])) d ']'
      (by simp) (pyWS_of_isDigit d hd)
      (by rw [List.getLast?_append]; rfl) (by decide)
    rw [hm]
    apply parse_none_of_strip_shape _ ((d :: nds2) ++ ". [x]".toList) r2 hr2
    · have hsh : ((d :: nds2) ++ ". [x]".toList) ++ r2 =
          d :: ((nds2 ++ ". [x]".toList) ++ r2) := by simp
      rw [hsh]
      refine startsWith_false_of_head d _ '-' _ "- [ ]" rfl ?_
      intro hc
      rw [← hc] at hd
      exact absurd hd (by decide)
    · have hsh : ((d :: nds2) ++ ". [x]".toList) ++ r2 =
          d :: ((nds2 ++ ". [x]".toList) ++ r2) := by simp
      rw [hsh]
      refine startsWith_false_of_head d _ '*' _ "* [ ]" rfl ?_
      intro hc
      rw [← hc] at hd
      exact absurd hd (by decide)
    · intro bx y hsf
      have heq := splitFirstAux_eq _ _ _ _ hsf
      cases hbx : pyIsDigit ⟨bx⟩ with
      | false => rfl
      | true =>
        exfalso
        have hbxall : ∀ c ∈ bx, c.isDigit = true := by
          unfold pyIsDigit at hbx
          rw [show (String.toList ⟨bx⟩) = bx from rfl] at hbx
          rw [Bool.and_eq_true] at hbx
          exact List.all_eq_true.mp hbx.2
        have heq2 : bx ++ (". [ ]".toList ++ y) =
            (d :: nds2) ++ (". [x]".toList ++ r2) := by
          have := heq.symm
          simpa [List.append_assoc] using this
        rcases List.append_eq_append_iff.mp heq2 with ⟨a2, ha1, ha2⟩ | ⟨c2, hc1, hc2⟩
        · cases a2 with
          | nil => simp at ha2
          | cons a0 a3 =>
            have ha0 : '.' = a0 := by simpa using congrArg List.head? ha2
            have hmem : a0 ∈ d :: nds2 := by rw [ha1]; simp
            have hda := hdigs a0 hmem
            rw [← ha0] at hda
            exact absurd hda (by decide)
        · cases c2 with
          | nil => simp at hc2
          | cons c0 c3 =>
            have hc0 : '.' = c0 := by simpa using congrArg List.head? hc2
            have hmem : c0 ∈ bx := by rw [hc1]; simp
            have hca := hbxall c0 hmem
            rw [← hc0] at hca
            exact absurd hca (by decide)

/- ## Claim theorems -/

/-- C1 counterexample: a tool result text containing the line Exit Code: 0
and a non-empty output section (which also contains the keyword error) is
nevertheless judged failed when the review LLM does not answer
satisfactory: the run of envC1 leaves the task unchecked, clears
all_tasks_ok and halts.  The claimed priority of an explicit zero exit
code with non-empty output over keyword matching does not exist in the
post-step judgment. -/
theorem c1_counterexample :
    envC1.run 0 = ToolRun.ok "Exit Code: 0\nOutput:\nerror found in data" ∧
    containsSub "Exit Code: 0\nOutput:\nerror found in data" "Exit Code: 0" = true ∧
    containsSub "Exit Code: 0\nOutput:\nerror found in data" "error" = true ∧
    (execute_tasks envC1 linesC1).1 = linesC1 ∧
    (execute_tasks envC1 linesC1).2.allOk = false ∧
    (execute_tasks envC1 linesC1).2.halted = true := by
  decide

/-- C1 amended: the success/failure judgment applied after a step runs
(agent.py line 262) never reads the tool result text: a step is judged
successful iff the review LLM reply contains satisfactory
(case-insensitively) and no tool exception occurred; two arbitrary tool
output texts always yield the same judgment, line update and halt flag. -/
theorem c1_judgment_ignores_exit_code (i : Nat) (line pre desc out1 out2 : String)
    (err : Bool) (rev : Option String) (acts : List Action) :
    ((judgeStep i line pre desc out1 err rev acts).status = StepStatus.done ↔
      (containsSub (lowerStr (review_and_repair rev)) "satisfactory" = true ∧ err = false)) ∧
    (judgeStep i line pre desc out1 err rev acts).status =
      (judgeStep i line pre desc out2 err rev acts).status ∧
    (judgeStep i line pre desc out1 err rev acts).newLine =
      (judgeStep i line pre desc out2 err rev acts).newLine ∧
    (judgeStep i line pre desc out1 err rev acts).halt =
      (judgeStep i line pre desc out2 err rev acts).halt := by
  cases err <;>
    cases hA : containsSub (lowerStr (review_and_repair rev)) "satisfactory" <;>
      simp [judgeStep, hA]

/-- Witness for the C1 amended theorem at concrete inputs. -/
theorem c1_judgment_ignores_exit_code_witness :
    (judgeStep 0 "1. [ ] t\n" "1. [ ] " "t" "Exit Code: 1" false
        (some "Satisfactory") []).status = StepStatus.done :=
  (c1_judgment_ignores_exit_code 0 "1. [ ] t\n" "1. [ ] " "t" "Exit Code: 1" "other"
    false (some "Satisfactory") []).1.mpr ⟨by decide, rfl⟩

/-- C2 counterexample: in the run of envC2 the step fails its review, yet
the executor performs exactly one dispatch for it, and the full request
trace is one selection prompt, one dispatch and one review prompt: no
correction is ever requested and there is no second or third try before
the step is recorded failed (line unchecked, all_tasks_ok cleared, run
halted) — not the 3 total tries of the claim. -/
theorem c2_counterexample :
    dispatchCount (execute_tasks envC2 linesC2).2.trace 0 = 1 ∧
    (execute_tasks envC2 linesC2).2.trace =
      [Action.selPrompt 0 "run the command",
       Action.dispatch 0 "shell_terminal" "echo hi",
       Action.reviewPrompt 0 "run the command" "Exit Code: 1"] ∧
    (execute_tasks envC2 linesC2).1 = linesC2 ∧
    (execute_tasks envC2 linesC2).2.allOk = false ∧
    (execute_tasks envC2 linesC2).2.halted = true := by
  decide

/-- C2 amended: the executor never retries and never asks for a corrected
step: over any run of execute_tasks each file line is dispatched to a
tool at most once, and a step whose judgment is not done halts the loop
immediately with all_tasks_ok cleared. -/
theorem c2_no_retry_single_dispatch :
    (∀ (env : Env) (lines : List String) (j : Nat),
      dispatchCount (execute_tasks env lines).2.trace j ≤ 1) ∧
    (∀ (i : Nat) (line pre desc output : String) (err : Bool)
        (rev : Option String) (acts : List Action),
      (judgeStep i line pre desc output err rev acts).status ≠ StepStatus.done →
      (judgeStep i line pre desc output err rev acts).halt = true ∧
      (judgeStep i line pre desc output err rev acts).keepOk = false) := by
  constructor
  · intro env lines j
    obtain ⟨d, h1, _, h3⟩ :=
      execTasksAux_trace_spec env lines 0 { allOk := true, halted := false, trace := [] }
    unfold execute_tasks
    rw [h1]
    simpa using h3 j
  · intro i line pre desc output err rev acts h
    cases hc : containsSub (lowerStr (review_and_repair rev)) "satisfactory" && !err with
    | false => simp [judgeStep, hc]
    | true => exact absurd (by simp [judgeStep, hc]) h

/-- Witness for the C2 amended theorem at concrete inputs. -/
theorem c2_no_retry_single_dispatch_witness :
    dispatchCount (execute_tasks envC2 linesC2).2.trace 0 ≤ 1 ∧
    (judgeStep 0 "1. [ ] t\n" "1. [ ] " "t" "out" false (some "Issue") []).halt = true ∧
    (judgeStep 0 "1. [ ] t\n" "1. [ ] " "t" "out" false (some "Issue") []).keepOk = false :=
  ⟨c2_no_retry_single_dispatch.1 envC2 linesC2 0,
   (c2_no_retry_single_dispatch.2 0 "1. [ ] t\n" "1. [ ] " "t" "out" false
      (some "Issue") [] (by decide)).1,
   (c2_no_retry_single_dispatch.2 0 "1. [ ] t\n" "1. [ ] " "t" "out" false
      (some "Issue") [] (by decide)).2⟩

/-- C3 counterexample: in the run of envC3 step 1 succeeds with an output
containing SECRET42, yet the input dispatched for step 2 is exactly the
tool_input of its own tool selection, print(1), which does not contain
the step-1 output; and the script submitted to the code interpreter is
the user code verbatim, with no prefix statement binding any variable to
the previous output. -/
theorem c3_counterexample :
    (execute_tasks envC3 linesC3).2.trace =
      [Action.selPrompt 0 "produce the secret",
       Action.dispatch 0 "shell_terminal" "echo SECRET42",
       Action.reviewPrompt 0 "produce the secret" "Exit Code: 0\nOutput:\nSECRET42",
       Action.selPrompt 1 "compute",
       Action.dispatch 1 "code_interpreter" "print(1)",
       Action.reviewPrompt 1 "compute" "Exit Code: 0\nOutput:\n1"] ∧
    (execute_tasks envC3 linesC3).1 =
      ["1. [x] produce the secret\n", "2. [x] compute\n"] ∧
    containsSub "print(1)" "SECRET42" = false ∧
    scriptContent "print(1)" = "print(1)" ∧
    containsSub (scriptContent "print(1)") "SECRET42" = false := by
  decide

/-- C3 amended: no output is threaded between steps: the input a step
dispatches to its tool is exactly the tool_input of that same step
tool-selection reply (a function of the selection oracle and the task
description only), and the script submitted by the code interpreter is
the user code verbatim, with no injected prefix statement. -/
theorem c3_no_threading :
    (∀ (env : Env) (i : Nat) (line pre desc t inp : String),
      Action.dispatch i t inp ∈ (processStep env i line pre desc).acts →
      selName (env.sel i) desc = some (t, inp)) ∧
    (∀ code : String, scriptContent code = code) := by
  constructor
  · intro env i line pre desc t inp
    unfold processStep
    split
    · intro h; simp at h
    · rename_i ni heq
      split
      · rw [judgeStep_acts]; intro h; simp at h
      · split
        · intro h; simp at h
        · split <;>
            (rw [judgeStep_acts]; intro h; simp at h;
              rw [heq, h.1, h.2])
  · intro code; rfl

/-- Witness for the C3 amended theorem at concrete inputs. -/
theorem c3_no_threading_witness :
    selName (envC3.sel 1) "compute" = some ("code_interpreter", "print(1)") ∧
    scriptContent "print(1)" = "print(1)" :=
  ⟨c3_no_threading.1 envC3 1 "2. [ ] compute\n" "2. [ ] " "compute"
    "code_interpreter" "print(1)" (by decide),
   c3_no_threading.2 "print(1)"⟩

/-- C4 counterexample: in the run of envC4 the first task selects the
unknown tool foo; instead of receiving a terminal error that halts the
run, the step is skipped (line unchanged, all_tasks_ok cleared) and
iteration continues: the second task is dispatched and completed after
the unknown-tool step. -/
theorem c4_counterexample :
    (execute_tasks envC4 linesC4).1 =
      ["1. [ ] use the foo tool\n", "2. [x] say hi\n"] ∧
    (execute_tasks envC4 linesC4).2.halted = false ∧
    (execute_tasks envC4 linesC4).2.allOk = false ∧
    dispatchCount (execute_tasks envC4 linesC4).2.trace 1 = 1 := by
  decide

/-- C4 amended: a step whose selected tool is unknown is skipped — the
line is restored, all_tasks_ok is cleared and iteration continues with
the next line; the loop halts exactly on a failed judgment or a
selection exception, and once halted no further line is processed. -/
theorem c4_unknown_tool_skipped :
    (∀ (env : Env) (i : Nat) (line pre desc inp : String),
      selName (env.sel i) desc = some ("unknown", inp) →
      processStep env i line pre desc =
        { newLine := line, keepOk := false, halt := false,
          status := StepStatus.skippedUnknown, acts := [Action.selPrompt i desc] }) ∧
    (∀ (env : Env) (i : Nat) (line pre desc : String),
      (processStep env i line pre desc).halt = true ↔
        ((processStep env i line pre desc).status = StepStatus.failedReview ∨
          (processStep env i line pre desc).status = StepStatus.selectError)) ∧
    (∀ (env : Env) (n : Nat) (ls : List String) (st : RunState),
      st.halted = true → execTasksAux env n ls st = (ls, st)) := by
  refine ⟨?_, ?_, fun env n ls st h => execTasksAux_halted env ls n st h⟩
  · intro env i line pre desc inp h
    unfold processStep
    rw [h]
    simp
  · intro env i line pre desc
    unfold processStep
    split
    · simp
    · split
      · unfold judgeStep; split <;> simp
      · split
        · simp
        · split <;> (unfold judgeStep; split <;> simp)

/-- Witness for the C4 amended theorem at concrete inputs. -/
theorem c4_unknown_tool_skipped_witness :
    processStep envC4 0 "1. [ ] use the foo tool\n" "1. [ ] " "use the foo tool" =
      { newLine := "1. [ ] use the foo tool\n", keepOk := false, halt := false,
        status := StepStatus.skippedUnknown,
        acts := [Action.selPrompt 0 "use the foo tool"] } ∧
    execTasksAux envC4 0 linesC4 { allOk := false, halted := true, trace := [] } =
      (linesC4, { allOk := false, halted := true, trace := [] }) :=
  ⟨c4_unknown_tool_skipped.1 envC4 0 "1. [ ] use the foo tool\n" "1. [ ] "
    "use the foo tool" "whatever" (by decide),
   c4_unknown_tool_skipped.2.2 envC4 0 linesC4
    { allOk := false, halted := true, trace := [] } rfl⟩

/-- C5: the websocket handler calls handle_agent_workflow with the
keyword planner_model_name, which is not among the parameters
(user_query, selected_model, websocket), so Python keyword binding
raises TypeError before the workflow body runs: every iteration returns
only the generic unexpected-server-error message, independent of the
workflow body, and no planning request is ever sent.  Independently, the
send_prompt call in create_task_list uses keywords model_name and
system_message that simple_prompt (model, prompt, system) does not
accept. -/
theorem c5_keyword_call_type_error :
    ∀ body : Unit → List String,
      websocket_endpoint_iteration body =
        ["Agent Error: An unexpected server error occurred: handle_agent_workflow() got an unexpected keyword argument \x27planner_model_name\x27"] ∧
      pyAcceptsKwargs handle_agent_workflow_params websocket_call_kwargs = false ∧
      pyAcceptsKwargs simple_prompt_params create_task_list_kwargs = false := by
  intro body
  exact ⟨rfl, by decide, by decide⟩

/-- Witness for C5 at a concrete workflow body. -/
theorem c5_keyword_call_type_error_witness :
    websocket_endpoint_iteration (fun _ => ["workflow ran"]) =
      ["Agent Error: An unexpected server error occurred: handle_agent_workflow() got an unexpected keyword argument \x27planner_model_name\x27"] :=
  (c5_keyword_call_type_error (fun _ => ["workflow ran"])).1

/-- C6: when no checkbox list can be extracted from the planning response
(even after the line-extraction cleanup pass), create_task_list fails
with an invalid-plan error whose printed diagnostic carries the original
response text, and the exception message is the fixed invalid-format
text; and plan parsing never returns an empty plan. -/
theorem c6_plan_invalid :
    (∀ md : String,
      extractTaskLines (pySplitLines (pyStrip md)) false = [] →
      create_task_list (some md) =
        PlanResult.invalid
          ("Error: Could not extract task list from LLM response. Raw:\n" ++ md)
          "LLM produced invalid task list format or no list found." ∧
      containsSub
        ("Error: Could not extract task list from LLM response. Raw:\n" ++ md) md = true) ∧
    (∀ (resp : Option String) (c : String),
      create_task_list resp = PlanResult.ok c → c ≠ "") := by
  constructor
  · intro md h
    exact ⟨by simp [create_task_list, cleanedTaskList, h], containsSub_append_right _ _⟩
  · intro resp c h
    cases resp with
    | none => simp [create_task_list] at h
    | some md =>
      by_cases hcl : cleanedTaskList md = ""
      · simp [create_task_list, hcl] at h
      · simp [create_task_list, hcl] at h
        rw [← h]
        exact hcl

/-- Witness for C6 at a concrete refusal response. -/
theorem c6_plan_invalid_witness :
    create_task_list (some "I cannot help with that request.") =
      PlanResult.invalid
        ("Error: Could not extract task list from LLM response. Raw:\n" ++
          "I cannot help with that request.")
        "LLM produced invalid task list format or no list found." ∧
    ("1. [ ] do a thing" : String) ≠ "" :=
  ⟨(c6_plan_invalid.1 "I cannot help with that request." (by decide)).1,
   c6_plan_invalid.2 (some "1. [ ] do a thing") "1. [ ] do a thing" (by decide)⟩

/-- C7: when the final summarization request returns nothing (a None or
empty LLM reply), final_review reports the failure as a message and
returns a fixed fallback string instead of raising, so the workflow
still takes its normal completion path: the final-response message
carries the fallback text, no Workflow-error message is emitted, and the
terminal completion notice is still sent last. -/
theorem c7_summarization_soft_warning (pm sm base content : String) (renv : FinalEnv)
    (hfile : renv.fileExists = true) (hread : renv.readResult = Except.ok content)
    (hsum : renv.summaryResp = none ∨ renv.summaryResp = some "") :
    handle_agent_workflow
        { planningModel := pm, selectedModel := sm, createTask := Except.ok base,
          execTasksRes := Except.ok (), finalEnv := renv } =
      ["Agent: Processing request...",
       "Agent: Creating task list using " ++ pm ++ "...",
       "Agent: Task list created: " ++ base,
       "Agent: Executing tasks (Review LLM: " ++ sm ++ ")...",
       "Agent: Final review (LLM: " ++ pm ++ ")...",
       "Agent: Requesting final summary from " ++ pm ++ "...",
       "Agent Error: LLM failed final response.",
       "Agent: Final Response: Agent Error: Could not generate final response.",
       "Agent: Workflow complete."] := by
  rcases hsum with h | h <;>
    simp [handle_agent_workflow, final_review, hfile, hread, h]

/-- Witness for C7 at concrete inputs. -/
theorem c7_summarization_soft_warning_witness :
    handle_agent_workflow
        { planningModel := "llama3:latest", selectedModel := "qwen2.5:7b",
          createTask := Except.ok "tasks_x.md", execTasksRes := Except.ok (),
          finalEnv := { fileExists := true, readResult := Except.ok "1. [x] done",
                        summaryResp := none } } =
      ["Agent: Processing request...",
       "Agent: Creating task list using " ++ "llama3:latest" ++ "...",
       "Agent: Task list created: " ++ "tasks_x.md",
       "Agent: Executing tasks (Review LLM: " ++ "qwen2.5:7b" ++ ")...",
       "Agent: Final review (LLM: " ++ "llama3:latest" ++ ")...",
       "Agent: Requesting final summary from " ++ "llama3:latest" ++ "...",
       "Agent Error: LLM failed final response.",
       "Agent: Final Response: Agent Error: Could not generate final response.",
       "Agent: Workflow complete."] :=
  c7_summarization_soft_warning "llama3:latest" "qwen2.5:7b" "tasks_x.md" "1. [x] done"
    { fileExists := true, readResult := Except.ok "1. [x] done", summaryResp := none }
    rfl rfl (Or.inl rfl)

/-- C8 counterexample: when the code interpreter script attempt times
out, the text returned to the caller is the combined report, which
starts with the line Exit Code: -1 — not with Error: as the claim states
for every tool — although it does describe the timeout. -/
theorem c8_counterexample :
    execute_python_code "print(1)" envC8 =
      "Exit Code: -1\nError:\nError: Python execution timed out after 60s." ∧
    startsWithStr (execute_python_code "print(1)" envC8) "Error:" = false ∧
    containsSub (execute_python_code "print(1)" envC8)
      "Error: Python execution timed out after 60s." = true := by
  decide

/-- C8 amended: a timeout never escapes a tool as an exception; the shell
and browser tools return a failure text starting with Error:, while the
code interpreter returns a combined report that embeds the timeout
message Error: Python execution timed out after 60s. but begins with
Exit Code: -1. -/
theorem c8_timeout_failure_text :
    (∀ (fc : String) (sr : ShlexResult) (parts : List String),
      shellPreCheck fc sr = Except.ok parts →
      execute_shell_command fc sr ShellOutcome.timedOut =
        "Error: Shell command timed out after 30s." ∧
      startsWithStr (execute_shell_command fc sr ShellOutcome.timedOut) "Error:" = true) ∧
    (∀ (instr runnerPath model : String) (j1 j2 : StdoutJson),
      model ≠ "" →
      browse_website instr runnerPath true model BrowserOutcome.timedOut j1 j2 =
        "Error: Browser subprocess exceeded hard timeout (240.0s)." ∧
      startsWithStr
        (browse_website instr runnerPath true model BrowserOutcome.timedOut j1 j2)
        "Error:" = true) ∧
    (∀ (code : String) (cenv : CodeEnv),
      pyStrip code ≠ "" → cenv.tempFileError = none → cenv.outerExc = none →
      cenv.att1 = AttemptOutcome.timedOut →
      execute_python_code code cenv =
        "Exit Code: -1\nError:\nError: Python execution timed out after 60s." ∧
      containsSub (execute_python_code code cenv)
        "Error: Python execution timed out after 60s." = true ∧
      startsWithStr (execute_python_code code cenv) "Error:" = false) := by
  refine ⟨?_, ?_, ?_⟩
  · intro fc sr parts h
    have hres : execute_shell_command fc sr ShellOutcome.timedOut =
        "Error: Shell command timed out after 30s." := by
      unfold execute_shell_command
      rw [h]
      rfl
    exact ⟨hres, by rw [hres]; decide⟩
  · intro instr runnerPath model j1 j2 h
    have hres : browse_website instr runnerPath true model BrowserOutcome.timedOut j1 j2 =
        "Error: Browser subprocess exceeded hard timeout (240.0s)." := by
      unfold browse_website
      rw [if_neg (by simp)]
      rw [if_neg h]
    exact ⟨hres, by rw [hres]; decide⟩
  · intro code cenv h1 h2 h3 h4
    have hres : execute_python_code code cenv =
        "Exit Code: -1\nError:\nError: Python execution timed out after 60s." := by
      unfold execute_python_code
      rw [if_neg h1, h2, h3, h4]
      rfl
    exact ⟨hres, by rw [hres]; decide, by rw [hres]; decide⟩

/-- Witness for the C8 amended theorem at concrete inputs. -/
theorem c8_timeout_failure_text_witness :
    execute_shell_command "echo hi" (ShlexResult.ok ["echo", "hi"])
        ShellOutcome.timedOut = "Error: Shell command timed out after 30s." ∧
    browse_website "go" "/app/run_browser_task.py" true "qwen2.5:7b"
        BrowserOutcome.timedOut StdoutJson.notJson StdoutJson.notJson =
      "Error: Browser subprocess exceeded hard timeout (240.0s)." ∧
    execute_python_code "print(1)" envC8 =
      "Exit Code: -1\nError:\nError: Python execution timed out after 60s." :=
  ⟨(c8_timeout_failure_text.1 "echo hi" (ShlexResult.ok ["echo", "hi"])
      ["echo", "hi"] rfl).1,
   (c8_timeout_failure_text.2.1 "go" "/app/run_browser_task.py" "qwen2.5:7b"
      StdoutJson.notJson StdoutJson.notJson (by decide)).1,
   (c8_timeout_failure_text.2.2 "print(1)" envC8 (by decide) rfl rfl rfl).1⟩

/-- C9: task status is monotonic over a run of execute_tasks: every line
of the written-back file is either unchanged or the completed [x]
version of an incomplete [ ] task line, so a task only moves from
incomplete to complete and is never reverted; a line that is not an
incomplete task (in particular an already completed one) is written back
unchanged and contributes nothing to the run; no line is ever
dispatched more than once; and the completed version of an incomplete
task line is itself never recognised as an incomplete task, so a
completed task is never reverted or re-executed. -/
theorem c9_status_monotonic :
    (∀ (env : Env) (lines : List String),
      List.Forall₂
        (fun old new => new = old ∨
          ∃ pre desc, parseTaskLine old = some (pre, desc) ∧ new = markDoneLine pre desc)
        lines (execute_tasks env lines).1) ∧
    (∀ (env : Env) (n : Nat) (line : String) (rest : List String) (st : RunState),
      parseTaskLine line = none →
      execTasksAux env n (line :: rest) st =
        (line :: (execTasksAux env (n + 1) rest st).1,
          (execTasksAux env (n + 1) rest st).2)) ∧
    (∀ (env : Env) (lines : List String) (j : Nat),
      dispatchCount (execute_tasks env lines).2.trace j ≤ 1) ∧
    (∀ line pre desc : String,
      parseTaskLine line = some (pre, desc) →
      parseTaskLine (markDoneLine pre desc) = none) := by
  refine ⟨?_, ?_, ?_, fun line pre desc h => parse_markDone_none line pre desc h⟩
  · intro env lines
    exact execTasksAux_lines_spec env lines 0 _
  · intro env n line rest st h
    cases hst : st.halted <;> simp [execTasksAux, hst, h]
  · intro env lines j
    obtain ⟨d, h1, _, h3⟩ :=
      execTasksAux_trace_spec env lines 0 { allOk := true, halted := false, trace := [] }
    unfold execute_tasks
    rw [h1]
    simpa using h3 j

/-- Witness for C9 at concrete inputs: the successful two-step run of
envC3 plus one already-completed line that is skipped unchanged. -/
theorem c9_status_monotonic_witness :
    List.Forall₂
      (fun old new => new = old ∨
        ∃ pre desc, parseTaskLine old = some (pre, desc) ∧ new = markDoneLine pre desc)
      linesC3 (execute_tasks envC3 linesC3).1 ∧
    execTasksAux envC3 0 ["3. [x] already done\n"]
        { allOk := true, halted := false, trace := [] } =
      ("3. [x] already done\n" ::
          (execTasksAux envC3 1 [] { allOk := true, halted := false, trace := [] }).1,
        (execTasksAux envC3 1 [] { allOk := true, halted := false, trace := [] }).2) ∧
    dispatchCount (execute_tasks envC3 linesC3).2.trace 0 ≤ 1 ∧
    parseTaskLine (markDoneLine "1. [ ] " "produce the secret") = none :=
  ⟨c9_status_monotonic.1 envC3 linesC3,
   c9_status_monotonic.2.1 envC3 0 "3. [x] already done\n" []
     { allOk := true, halted := false, trace := [] } (by decide),
   c9_status_monotonic.2.2.1 envC3 linesC3 0,
   c9_status_monotonic.2.2.2 "1. [ ] produce the secret\n" "1. [ ] " "produce the secret"
     (by decide)⟩

/-- C10: for a command whose first token has a basename outside
ALLOWED_COMMANDS, or one of whose argument tokens contains a blacklisted
character or a .. path component, execute_shell_command returns an error
string beginning with Error: and never reaches the subprocess spawn —
the same error string is returned no matter how the (never created)
subprocess would have behaved.  The token list is the shlex.split result
for the command string. -/
theorem c10_shell_guard (fc : String) (cmd : String) (args : List String)
    (hbad : ALLOWED_COMMANDS.contains (osBasename cmd) = false ∨
      ∃ a ∈ args, claimBadArg a) :
    ∃ msg, shellPreCheck fc (ShlexResult.ok (cmd :: args)) = Except.error msg ∧
      startsWithStr msg "Error:" = true ∧
      shellSpawns fc (ShlexResult.ok (cmd :: args)) = false ∧
      ∀ outcome, execute_shell_command fc (ShlexResult.ok (cmd :: args)) outcome = msg := by
  have key : ∃ msg, shellPreCheck fc (ShlexResult.ok (cmd :: args)) = Except.error msg ∧
      startsWithStr msg "Error:" = true := by
    by_cases hfc : pyStrip fc = ""
    · refine ⟨"Error: No shell command provided to execute.", ?_, by decide⟩
      unfold shellPreCheck
      rw [if_pos hfc]
    · rcases hbad with hcmd | ⟨a, ha, hclaim⟩
      · refine ⟨"Error: Command \x27" ++ osBasename cmd ++ "\x27 (from \x27" ++ cmd ++
            "\x27) is not in the allowed list: " ++ joinSep ", " ALLOWED_COMMANDS, ?_, ?_⟩
        · unfold shellPreCheck
          rw [if_neg hfc]
          dsimp only
          rw [hcmd]
          rfl
        · apply startsWith_append_left
          apply startsWith_append_left
          apply startsWith_append_left
          apply startsWith_append_left
          apply startsWith_append_left
          decide
      · by_cases hw : ALLOWED_COMMANDS.contains (osBasename cmd) = false
        · refine ⟨"Error: Command \x27" ++ osBasename cmd ++ "\x27 (from \x27" ++ cmd ++
              "\x27) is not in the allowed list: " ++ joinSep ", " ALLOWED_COMMANDS, ?_, ?_⟩
          · unfold shellPreCheck
            rw [if_neg hfc]
            dsimp only
            rw [hw]
            rfl
          · apply startsWith_append_left
            apply startsWith_append_left
            apply startsWith_append_left
            apply startsWith_append_left
            apply startsWith_append_left
            decide
        · have hw' : ALLOWED_COMMANDS.contains (osBasename cmd) = true :=
            eq_true_of_ne_false hw
          have hsome := claimBadArg_checkArg a hclaim
          have hfind : (args.findSome? checkArg).isSome = true :=
            findSome?_isSome_of_mem checkArg args a ha hsome
          obtain ⟨e, he⟩ := Option.isSome_iff_exists.mp hfind
          obtain ⟨a', _, ha'⟩ := List.exists_of_findSome?_eq_some he
          refine ⟨e, ?_, checkArg_some_starts_error a' e ha'⟩
          unfold shellPreCheck
          rw [if_neg hfc]
          dsimp only
          rw [hw', he]
          rfl
  obtain ⟨msg, hpre, hstart⟩ := key
  refine ⟨msg, hpre, hstart, ?_, ?_⟩
  · unfold shellSpawns
    rw [hpre]
    rfl
  · intro outcome
    unfold execute_shell_command
    rw [hpre]

/-- Witness for C10 at three concrete commands: a non-whitelisted
command, a blacklisted character in an argument, and a path-traversal
argument. -/
theorem c10_shell_guard_witness :
    (∃ msg, shellPreCheck "evilcmd x" (ShlexResult.ok ["evilcmd", "x"]) =
        Except.error msg ∧
      startsWithStr msg "Error:" = true ∧
      shellSpawns "evilcmd x" (ShlexResult.ok ["evilcmd", "x"]) = false ∧
      ∀ outcome,
        execute_shell_command "evilcmd x" (ShlexResult.ok ["evilcmd", "x"]) outcome = msg) ∧
    (∃ msg, shellPreCheck "ls a;b" (ShlexResult.ok ["ls", "a;b"]) = Except.error msg ∧
      startsWithStr msg "Error:" = true ∧
      shellSpawns "ls a;b" (ShlexResult.ok ["ls", "a;b"]) = false ∧
      ∀ outcome,
        execute_shell_command "ls a;b" (ShlexResult.ok ["ls", "a;b"]) outcome = msg) ∧
    (∃ msg, shellPreCheck "ls ../x" (ShlexResult.ok ["ls", "../x"]) = Except.error msg ∧
      startsWithStr msg "Error:" = true ∧
      shellSpawns "ls ../x" (ShlexResult.ok ["ls", "../x"]) = false ∧
      ∀ outcome,
        execute_shell_command "ls ../x" (ShlexResult.ok ["ls", "../x"]) outcome = msg) :=
  ⟨c10_shell_guard "evilcmd x" "evilcmd" ["x"] (Or.inl (by decide)),
   c10_shell_guard "ls a;b" "ls" ["a;b"]
     (Or.inr ⟨"a;b", by decide, Or.inl ⟨";", by decide, by decide, by decide⟩⟩),
   c10_shell_guard "ls ../x" "ls" ["../x"]
     (Or.inr ⟨"../x", by decide, Or.inr (by decide)⟩)⟩

end Spec2Proof
